import Mathlib

/-!
Shallow embedding of the AutoExpresso repository (`src/aprox.py` and
`src/dysplay.py`): configuration loading, coordinate parsing, parsing of the
directions-API JSON response, and display formatting.

Modelling conventions:
* Python strings are `List Char`; Python `float` values are exact decimal
  rationals (`DecFloat`), the only values the program handles, while the
  acceptance domain of `float()` itself — with `inf`/`nan` literals and
  PEP-515 underscores — is modelled faithfully by `pyFloatAccepts`;
* Python exceptions are an explicit `PyErr` type and fallible Python code is
  `Except PyErr _`; the spec's `ConfigError` is the code's `EnvironmentError`
  (`PyErr.envError`) and the spec's `RouteError` is the `ValueError` raised by
  `parse_route` (`PyErr.valueError`);
* `time.localtime` is modelled at a fixed UTC offset (`pyStrftime`); the
  properties proved below (arrival arithmetic, determinism, formatting shape)
  do not depend on the chosen offset.
-/

deriving instance DecidableEq for Except

namespace AutoExpresso

/-- Characters of a string literal: lets Python strings be written as `List Char`. -/
def chars (s : String) : List Char := s.data

/-- The whitespace characters recognised by Python `str.strip()` / `str.split()`. -/
def isSpace (c : Char) : Bool :=
  c = ' ' || c = '\t' || c = '\n' || c = '\r' || c = '\x0b' || c = '\x0c'

/-- Python `str.strip()`: drop whitespace from both ends. -/
def strip (s : List Char) : List Char :=
  ((s.dropWhile isSpace).reverse.dropWhile isSpace).reverse

/-- Python `str.upper()` on ASCII text. -/
def upper (s : List Char) : List Char := s.map Char.toUpper

/-- Python `str.split(sep)` for a one-character separator. -/
def splitChar (sep : Char) : List Char → List (List Char)
  | [] => [[]]
  | c :: cs =>
    match splitChar sep cs with
    | [] => [[c]]
    | h :: t => if c = sep then [] :: h :: t else (c :: h) :: t

/-- Helper for Python `str.split()` with no argument: `acc` is the reversed
current token. -/
def splitWsAux : List Char → List Char → List (List Char)
  | [], acc => if acc = [] then [] else [acc.reverse]
  | c :: cs, acc =>
    if isSpace c then
      if acc = [] then splitWsAux cs [] else acc.reverse :: splitWsAux cs []
    else
      splitWsAux cs (c :: acc)

/-- Python `str.split()` with no argument: split on whitespace runs, dropping
empty tokens. -/
def splitWs (s : List Char) : List (List Char) := splitWsAux s []

/-- Value of a digit string, most significant digit first. -/
def digitsToNat (l : List Char) : Nat :=
  l.foldl (fun acc c => acc * 10 + (c.toNat - 48)) 0

/-- A non-empty all-digit string, as a natural number. -/
def parseUIntDigits (l : List Char) : Option Nat :=
  if !l.isEmpty && l.all Char.isDigit then some (digitsToNat l) else none

/-- The exact value of a parsed Python float literal: an integer numerator over
a power-of-ten denominator, kept unreduced.  (The program only ever feeds
decimal coordinate literals to `float`; the claims proved here depend only on
their exact decimal values, not on binary rounding.) -/
structure DecFloat where
  num : Int
  den : Nat
deriving DecidableEq

/-- The rational number a `DecFloat` denotes. -/
def DecFloat.toRat (x : DecFloat) : Rat := (x.num : Rat) / (x.den : Rat)

/-- Strip one optional leading sign, returning whether it was a minus. -/
def signSplit : List Char → Bool × List Char
  | '+' :: r => (false, r)
  | '-' :: r => (true, r)
  | r => (false, r)

/-- Exponent part of a float literal: optional sign followed by digits. -/
def parseExponent (l : List Char) : Option Int :=
  let s := signSplit l
  (parseUIntDigits s.2).map (fun n => if s.1 then -(n : Int) else (n : Int))

/-- Mantissa of a float literal: digits with at most one decimal point and at
least one digit overall. -/
def parseMantissa (l : List Char) : Option DecFloat :=
  match splitChar '.' l with
  | [ip] => (parseUIntDigits ip).map (fun n => ⟨(n : Int), 1⟩)
  | [ip, fp] =>
    if (!ip.isEmpty || !fp.isEmpty) && ip.all Char.isDigit && fp.all Char.isDigit then
      some ⟨(digitsToNat ip : Int) * (10 : Int) ^ fp.length + (digitsToNat fp : Int),
            (10 : Nat) ^ fp.length⟩
    else none
  | _ => none

/-- Split a float literal at the first `e`/`E`, if any. -/
def splitOnExpChar : List Char → List Char × Option (List Char)
  | [] => ([], none)
  | c :: cs =>
    if c = 'e' || c = 'E' then ([], some cs)
    else
      let r := splitOnExpChar cs
      (c :: r.1, r.2)

/-- Scale a mantissa by `10 ^ e`. -/
def applyExponent (m : DecFloat) (e : Int) : DecFloat :=
  if 0 ≤ e then ⟨m.num * (10 : Int) ^ e.toNat, m.den⟩
  else ⟨m.num, m.den * (10 : Nat) ^ (-e).toNat⟩

/-- Apply the optional leading sign. -/
def applySign (sgn : Bool) (m : DecFloat) : DecFloat :=
  if sgn then ⟨-m.num, m.den⟩ else m

/-- Python `float(s)` on an already-stripped string: optional sign, decimal
mantissa, optional decimal exponent.  (The model covers the finite decimal
literals the program handles.) -/
def pyFloatCore (l : List Char) : Option DecFloat :=
  let sr := signSplit l
  let me := splitOnExpChar sr.2
  match parseMantissa me.1, me.2 with
  | some m, none => some (applySign sr.1 m)
  | some m, some es => (parseExponent es).map (fun e => applySign sr.1 (applyExponent m e))
  | none, _ => none

/-- Python `float(s)` restricted to its finite decimal literals: the builtin
tolerates surrounding whitespace.  This conservative parser yields the exact
value where it succeeds; full acceptance of `float()` — including `inf`,
`infinity`, `nan` and underscored digit groups, which have no `DecFloat`
value — is modelled separately and faithfully by `pyFloatAccepts`, and
`pyFloat_some_accepts` proves this parser sound with respect to it. -/
def pyFloat (l : List Char) : Option DecFloat := pyFloatCore (strip l)

/-- A non-empty PEP-515 digit run: underscores only singly and strictly
between digits, i.e. splitting on `_` yields only non-empty all-digit
groups. -/
def digitsU (l : List Char) : Bool :=
  (splitChar '_' l).all fun g => !g.isEmpty && g.all Char.isDigit

/-- Acceptance of a `float()` mantissa: digit runs around at most one decimal
point, at least one digit overall, underscores only between digits. -/
def mantissaU (l : List Char) : Bool :=
  match splitChar '.' l with
  | [ip] => digitsU ip
  | [ip, fp] =>
    (ip.isEmpty || digitsU ip) && (fp.isEmpty || digitsU fp) && (!ip.isEmpty || !fp.isEmpty)
  | _ => false

/-- Acceptance of a `float()` exponent: optional sign then a digit run. -/
def expU (l : List Char) : Bool := digitsU (signSplit l).2

/-- The case-insensitive special `float()` literals `inf`, `infinity` and
`nan`, with an optional sign. -/
def isInfNan (l : List Char) : Bool :=
  let low := (signSplit l).2.map Char.toLower
  (low == chars "inf") || (low == chars "infinity") || (low == chars "nan")

/-- Whether Python `float(s)` succeeds on an already-stripped string: a special
infinity/NaN literal, or a sign, a mantissa and an optional exponent with
PEP-515 underscore groups. -/
def pyFloatAcceptsCore (l : List Char) : Bool :=
  isInfNan l ||
    (let sr := signSplit l
     let me := splitOnExpChar sr.2
     match me.2 with
     | none => mantissaU me.1
     | some es => mantissaU me.1 && expU es)

/-- Whether Python `float(s)` succeeds (raises no `ValueError`); the builtin
tolerates surrounding whitespace. -/
def pyFloatAccepts (l : List Char) : Bool := pyFloatAcceptsCore (strip l)

/-- The Python exceptions that the modelled code can raise.  `envError` is the
code's `EnvironmentError` (the spec's `ConfigError`); `valueError` is the
`ValueError` that `parse_route` raises (the spec's `RouteError`). -/
inductive PyErr where
  | valueError (msg : List Char)
  | keyError (key : List Char)
  | indexError
  | typeError (msg : List Char)
  | envError (msg : List Char)
  | fileNotFound (path : List Char)
deriving DecidableEq

/-- Python `str(exc)` for the exceptions above; `str(KeyError(k))` wraps the
key in apostrophes (character 39). -/
def pyStr : PyErr → List Char
  | .valueError m => m
  | .keyError k => Char.ofNat 39 :: (k ++ [Char.ofNat 39])
  | .indexError => chars "list index out of range"
  | .typeError m => m
  | .envError m => m
  | .fileNotFound p => chars "[Errno 2] No such file or directory: " ++ p

/-! ## Config loader (`aprox.load_api_key`, `_require_env`, `_require_float_env`) -/

/-- The fallback branch of `load_api_key`: `open(key_file).read().strip()`.
`apiFile` is the contents of the `api` file when it exists; a missing file
raises `FileNotFoundError`. -/
def read_api_file (apiFile : Option (List Char)) : Except PyErr (List Char) :=
  match apiFile with
  | some c => .ok (strip c)
  | none => .error (.fileNotFound (chars "api"))

/-- Model of `aprox.load_api_key`: `env` is `os.getenv("GOOGLE_MAPS_API_KEY")`.  A
non-empty environment value is returned stripped; otherwise the fallback file
is read and stripped. -/
def load_api_key (env apiFile : Option (List Char)) : Except PyErr (List Char) :=
  match env with
  | some k => if k = [] then read_api_file apiFile else .ok (strip k)
  | none => read_api_file apiFile

/-- Model of `aprox._require_env`: the value must be present and not whitespace-only;
note it is returned unstripped. -/
def require_env (value : Option (List Char)) (name : List Char) : Except PyErr (List Char) :=
  match value with
  | none => .error (.envError (chars "Missing environment variable: " ++ name))
  | some v =>
    if strip v = [] then .error (.envError (chars "Missing environment variable: " ++ name))
    else .ok v

/-- Model of `aprox._require_float_env`: a required environment variable parsed as a
float; a parse failure is an `EnvironmentError` (spec: `ConfigError`). -/
def require_float_env (value : Option (List Char)) (name : List Char) : Except PyErr DecFloat :=
  match require_env value name with
  | .error e => .error e
  | .ok v =>
    match pyFloat v with
    | some f => .ok f
    | none => .error (.envError (chars "Invalid float for " ++ name))

/-! ## Coordinate parsing (`aprox._parse_latlng_pair`, `_read_coords`) -/

/-- The parts `_parse_latlng_pair` splits its input into: comma-separated with
stripped parts when a comma is present, otherwise whitespace-separated. -/
def latlng_parts (value : List Char) : List (List Char) :=
  let cleaned := strip value
  if ',' ∈ cleaned then (splitChar ',' cleaned).map strip else splitWs cleaned

/-- Model of `aprox._parse_latlng_pair`: exactly two parts, each parsed as a float;
anything else raises `EnvironmentError` (spec: `ConfigError`).  (The model
writes the offending input into the message in place of Python's `repr`.) -/
def parse_latlng_pair (value : List Char) : Except PyErr (DecFloat × DecFloat) :=
  match latlng_parts value with
  | [p0, p1] =>
    match pyFloat p0, pyFloat p1 with
    | some lat, some lng => .ok (lat, lng)
    | _, _ => .error (.envError (chars "Invalid coordinate numbers in: " ++ value))
  | _ => .error (.envError (chars "Invalid coordinate pair: " ++ value))

/-- Model of `aprox._read_coords`: use the combined `"lat,lng"` variable when it is set
and not whitespace-only, otherwise fall back to the separate `_LAT`/`_LNG`
variables. -/
def read_coords (combined latv lngv : Option (List Char)) (pfx : List Char) :
    Except PyErr (DecFloat × DecFloat) :=
  match combined with
  | some c =>
    if strip c = [] then
      do
        let lat ← require_float_env latv (pfx ++ chars "_LAT")
        let lng ← require_float_env lngv (pfx ++ chars "_LNG")
        return (lat, lng)
    else parse_latlng_pair c
  | none =>
    do
      let lat ← require_float_env latv (pfx ++ chars "_LAT")
      let lng ← require_float_env lngv (pfx ++ chars "_LNG")
      return (lat, lng)

/-! ## Directions response model and `aprox.parse_route` -/

/-- A duration object of the directions response: `{'text': ..., 'value': ...}`. -/
structure PyDuration where
  text : List Char
  value : Int
deriving DecidableEq

/-- The first-leg fields `parse_route` reads.  `distance` is the `text` field
of the `distance` object (`none` models a missing key, which raises
`KeyError`); the two duration fields are `leg.get(...)` results. -/
structure PyLeg where
  distance : Option (List Char)
  duration_in_traffic : Option PyDuration
  duration : Option PyDuration
deriving DecidableEq

/-- A route of the directions response: a list of legs. -/
structure PyRoute where
  legs : List PyLeg
deriving DecidableEq

/-- The directions response fields `parse_route` reads.  A missing `routes`
key and an empty `routes` list are both falsy in the guard, so both are
modelled as `[]`. -/
structure PyResp where
  status : Option (List Char)
  routes : List PyRoute
  error_message : Option (List Char)
deriving DecidableEq

/-- Model of `leg.get('duration_in_traffic') or leg.get('duration')`. -/
def pickDuration (leg : PyLeg) : Option PyDuration :=
  match leg.duration_in_traffic with
  | some d => some d
  | none => leg.duration

/-- The message of the `ValueError` raised by `parse_route` (spec:
`RouteError`): `f"API error: {status}: {error_message}"`, where a missing
status prints as `None` and a missing message as the empty string. -/
def apiErrorText (data : PyResp) : List Char :=
  chars "API error: " ++
    (match data.status with
     | some s => s
     | none => chars "None") ++
    chars ": " ++ data.error_message.getD []

/-! ## Local-time formatting (`time.strftime("%Y-%m-%d %H:%M:%S", time.localtime(ts))`) -/

/-- Left-pad a digit string with zeros to width `w`. -/
def padLeft (w : Nat) (s : List Char) : List Char :=
  List.replicate (w - s.length) '0' ++ s

/-- A natural number as at least two digits. -/
def pad2 (n : Nat) : List Char := padLeft 2 (Nat.toDigits 10 n)

/-- A natural number as at least four digits (glibc `%Y`). -/
def pad4 (n : Nat) : List Char := padLeft 4 (Nat.toDigits 10 n)

/-- Days-since-epoch to `(year, month, day)` in the proleptic Gregorian
calendar (Hinnant's `civil_from_days`, with C-style truncating division). -/
def civilFromDays (z0 : Int) : Int × Int × Int :=
  let z := z0 + 719468
  let era : Int := (if 0 ≤ z then z else z - 146096) / 146097
  let doe : Int := z - era * 146097
  let yoe : Int := (doe - doe / 1460 + doe / 36524 - doe / 146096) / 365
  let y : Int := yoe + era * 400
  let doy : Int := doe - (365 * yoe + yoe / 4 - yoe / 100)
  let mp : Int := (5 * doy + 2) / 153
  let d : Int := doy - (153 * mp + 2) / 5 + 1
  let m : Int := mp + (if mp < 10 then 3 else -9)
  (y + (if m ≤ 2 then 1 else 0), m, d)

/-- Model of `time.strftime("%Y-%m-%d %H:%M:%S", time.localtime(ts))` at a
fixed UTC offset: the zero-padded `YYYY-MM-DD HH:MM:SS` rendering of the
timestamp.  The properties proved below do not depend on the offset. -/
def pyStrftime (ts : Int) : List Char :=
  let days := Int.ediv ts 86400
  let secs := (Int.emod ts 86400).toNat
  let ymd := civilFromDays days
  pad4 ymd.1.toNat ++ chars "-" ++ pad2 ymd.2.1.toNat ++ chars "-" ++ pad2 ymd.2.2.toNat ++
    chars " " ++ pad2 (secs / 3600) ++ chars ":" ++ pad2 (secs / 60 % 60) ++ chars ":" ++
    pad2 (secs % 60)

/-- Model of `aprox.parse_route`: on a status-`OK` response with a non-empty `routes`
list, read the first leg of the first route; otherwise raise `ValueError`
(spec: `RouteError`).  Reading a malformed "successful" response raises the
corresponding Python exception: `legs[0]` on an empty list is `IndexError`,
`leg['distance']` with the key absent is `KeyError`, and subscripting the
`None` produced when both duration fields are absent is `TypeError`. -/
def parse_route (data : PyResp) (departure_time : Int) :
    Except PyErr (List Char × List Char × Option (List Char)) :=
  if data.status = some (chars "OK") ∧ data.routes ≠ [] then
    match data.routes with
    | [] => .error .indexError
    | r0 :: _ =>
      match r0.legs with
      | [] => .error .indexError
      | leg :: _ =>
        match leg.distance with
        | none => .error (.keyError (chars "distance"))
        | some distance =>
          match pickDuration leg with
          | none => .error (.typeError (chars "'NoneType' object is not subscriptable"))
          | some dobj =>
            let arrival_ts := departure_time + dobj.value
            .ok (distance, dobj.text, some (pyStrftime arrival_ts))
  else .error (.valueError (apiErrorText data))

/-! ## Presenter and scheduler (`aprox.print_route`, `dysplay.fetch_route_lines`,
`dysplay.LedDisplayApp.update_lines`) -/

/-- The per-route LED line built in `dysplay.fetch_route_lines`:
`f"{name}  SJ --> Cag  |  {duration}".upper()`. -/
def led_line (name duration : List Char) : List Char :=
  upper (name ++ chars "  SJ --> Cag  |  " ++ duration)

/-- Model of `aprox.print_route`, as the list of lines written to the console; the
arrival line is printed only when `arrival` is truthy (present and
non-empty). -/
def print_route (distance duration : List Char) (arrival : Option (List Char)) :
    List (List Char) :=
  [chars "Distance: " ++ distance, chars "Estimated travel time: " ++ duration] ++
    (match arrival with
     | some a => if a = [] then [] else [chars "Estimated arrival time: " ++ a]
     | none => [])

/-- The three Tkinter label texts of `dysplay.LedDisplayApp`. -/
structure DisplayState where
  line1 : List Char
  line2 : List Char
  statusText : List Char
deriving DecidableEq

/-- The status-line text set by `update_lines`. -/
def fmtStatus (depart_str now_str : List Char) : List Char :=
  chars "DEPARTURE: " ++ depart_str ++ chars "  |  REFRESHED: " ++ now_str

/-- Model of `dysplay.LedDisplayApp.update_lines`: `fetchResult` is the outcome of the
`fetch_route_lines` call inside the `try` block, `refresh_seconds` the
configured interval and `now` the wall-clock time.  Returns the new label
texts (every refresh overwrites all three) and the millisecond delay passed to
`root.after`, which is armed on both the success and the error path. -/
def update_lines (fetchResult : Except PyErr (List Char × List Char))
    (refresh_seconds : Int) (departure_time now : Int) : DisplayState × Int :=
  match fetchResult with
  | .ok (l1, l2) =>
    ({ line1 := l1, line2 := l2,
       statusText := fmtStatus (pyStrftime departure_time) (pyStrftime now) },
     refresh_seconds * 1000)
  | .error exc =>
    ({ line1 := chars "ERROR FETCHING ROUTES",
       line2 := upper (List.take 80 (pyStr exc)),
       statusText := fmtStatus (pyStrftime departure_time) (pyStrftime now) },
     refresh_seconds * 1000)

/-- The precise success condition of `parse_route`: status `OK`, a first route
with a first leg, a distance text and at least one duration field. -/
def routeSuccessShape (data : PyResp) : Prop :=
  data.status = some (chars "OK") ∧
  ∃ r0 rs leg ls dobj, data.routes = r0 :: rs ∧ r0.legs = leg :: ls ∧
    (∃ d, leg.distance = some d) ∧ pickDuration leg = some dobj

/-! ## Sanity checks on concrete inputs -/

example : strip (chars "  ab c  ") = chars "ab c" := by decide
example : splitChar ',' (chars "18.27,-66.03") = [chars "18.27", chars "-66.03"] := by decide
example : splitWs (chars " 18.27  -66.03 ") = [chars "18.27", chars "-66.03"] := by decide
example : pyFloat (chars "18.27") = some ⟨1827, 100⟩ := by decide
example : pyFloat (chars "-66.03") = some ⟨-6603, 100⟩ := by decide
example : pyFloat (chars "1e3") = some ⟨1000, 1⟩ := by decide
example : pyFloat (chars "2.5E-2") = some ⟨25, 1000⟩ := by decide
example : pyFloat (chars "1 2") = none := by decide
example : pyFloat (chars "") = none := by decide
example : (DecFloat.toRat ⟨25, 1000⟩) = 1 / 40 := by norm_num [DecFloat.toRat]
example : pyFloatAccepts (chars "18.27") = true := by decide
example : pyFloatAccepts (chars "-66.03") = true := by decide
example : pyFloatAccepts (chars "nan") = true := by decide
example : pyFloatAccepts (chars "-iNf") = true := by decide
example : pyFloatAccepts (chars "+Infinity") = true := by decide
example : pyFloatAccepts (chars " 1_000.2_5e1_0 ") = true := by decide
example : pyFloatAccepts (chars "1__0") = false := by decide
example : pyFloatAccepts (chars "_1") = false := by decide
example : pyFloatAccepts (chars "1_") = false := by decide
example : pyFloatAccepts (chars "1_.5") = false := by decide
example : pyFloatAccepts (chars "abc") = false := by decide
example : pyFloatAccepts (chars "1,2") = false := by decide
example : pyFloatAccepts (chars "") = false := by decide
example : pyFloat (chars "nan") = none := by decide

example : pyStrftime 0 = chars "1970-01-01 00:00:00" := by decide
example : pyStrftime 1000001500 = chars "2001-09-09 02:11:40" := by decide
example : parse_latlng_pair (chars "18.27,-66.03") = .ok (⟨1827, 100⟩, ⟨-6603, 100⟩) := by decide
example : parse_latlng_pair (chars "18.27 -66.03") = .ok (⟨1827, 100⟩, ⟨-6603, 100⟩) := by decide
example : parse_latlng_pair (chars "1,2,3") =
    .error (.envError (chars "Invalid coordinate pair: " ++ chars "1,2,3")) := by decide
example :
    parse_route ⟨some (chars "ZERO_RESULTS"), [], none⟩ 0 =
      .error (.valueError (chars "API error: ZERO_RESULTS: ")) := by decide
example :
    parse_route
      ⟨some (chars "OK"),
       [⟨[⟨some (chars "27.0 km"), some ⟨chars "25 mins", 1500⟩, none⟩]⟩], none⟩
      1000000000 =
      .ok (chars "27.0 km", chars "25 mins", some (chars "2001-09-09 02:11:40")) := by decide

/-! ## Helper lemmas -/

/-- Python `x or y` on optional duration objects selects the first present one. -/
theorem pickDuration_eq_some_iff (leg : PyLeg) (d : PyDuration) :
    pickDuration leg = some d ↔
      leg.duration_in_traffic = some d ∨
        (leg.duration_in_traffic = none ∧ leg.duration = some d) := by
  cases h : leg.duration_in_traffic <;> simp [pickDuration, h]

/-- Complete characterisation of the successful runs of `parse_route`. -/
theorem parse_route_ok_iff (data : PyResp) (T : Int) (d t : List Char)
    (a : Option (List Char)) :
    parse_route data T = .ok (d, t, a) ↔
      data.status = some (chars "OK") ∧
      ∃ r0 rs leg ls dobj, data.routes = r0 :: rs ∧ r0.legs = leg :: ls ∧
        leg.distance = some d ∧ pickDuration leg = some dobj ∧
        t = dobj.text ∧ a = some (pyStrftime (T + dobj.value)) := by
  constructor
  · intro h
    have hcond : data.status = some (chars "OK") ∧ data.routes ≠ [] := by
      by_contra hc
      simp only [parse_route, if_neg hc] at h
      exact Except.noConfusion h
    obtain ⟨hst, hne⟩ := hcond
    rcases hr : data.routes with _ | ⟨r0, rs⟩
    · exact absurd hr hne
    rcases hl : r0.legs with _ | ⟨leg, ls⟩
    · simp [parse_route, hst, hr, hl] at h
    rcases hd : leg.distance with _ | dist
    · simp [parse_route, hst, hr, hl, hd] at h
    rcases hp : pickDuration leg with _ | dobj
    · simp [parse_route, hst, hr, hl, hd, hp] at h
    simp only [parse_route, hst, hr, hl, hd, hp] at h
    simp at h
    obtain ⟨h1, h2, h3⟩ := h
    exact ⟨hst, r0, rs, leg, ls, dobj, rfl, hl, by rw [h1] at hd; exact hd, hp,
      h2.symm, h3.symm⟩
  · rintro ⟨hst, r0, rs, leg, ls, dobj, hr, hl, hd, hp, ht, ha⟩
    subst ht ha
    simp [parse_route, hst, hr, hl, hd, hp]

/-- An ASCII-upper-cased character is never a lower-case letter. -/
theorem toUpper_not_lower (c : Char) : (Char.toUpper c).isLower = false := by
  unfold Char.toUpper
  by_cases h : c.toNat ≥ 97 ∧ c.toNat ≤ 122
  · rw [if_pos h]
    have hvalid : (c.toNat - 32).isValidChar := Or.inl (by omega)
    have hval : (Char.ofNat (c.toNat - 32)).val.toBitVec.toNat = c.toNat - 32 := by
      simp [Char.ofNat, hvalid, Char.ofNatAux, UInt32.toNat, UInt32.ofNat']
    have h97 : (97 : UInt32).toBitVec.toNat = 97 := by decide
    simp only [Char.isLower, Bool.and_eq_false_iff, decide_eq_false_iff_not, ge_iff_le,
      UInt32.le_def, BitVec.le_def, hval, h97]
    left
    omega
  · rw [if_neg h]
    have h97 : (97 : UInt32).toBitVec.toNat = 97 := by decide
    have h122 : (122 : UInt32).toBitVec.toNat = 122 := by decide
    have hc : c.val.toBitVec.toNat = c.toNat := rfl
    simp only [Char.isLower, Bool.and_eq_false_iff, decide_eq_false_iff_not, ge_iff_le,
      UInt32.le_def, BitVec.le_def, h97, h122, hc]
    omega

/-! ## Claim theorems -/

/-- C1: on a status-`OK` response whose first leg carries a duration value of
`V` seconds, `parse_route` returns an arrival time computed exactly as
`departure_time + V`, rendered by the fixed `YYYY-MM-DD HH:MM:SS` local-time
formatter; as `parse_route` is a pure function, repeated computation with the
same inputs yields the same arrival timestamp. -/
theorem arrival_time_computed (data : PyResp) (T V : Int) (r0 : PyRoute)
    (rs : List PyRoute) (leg : PyLeg) (ls : List PyLeg) (dist : List Char)
    (dobj : PyDuration)
    (h1 : data.status = some (chars "OK"))
    (h2 : data.routes = r0 :: rs)
    (h3 : r0.legs = leg :: ls)
    (h4 : leg.distance = some dist)
    (h5 : pickDuration leg = some dobj)
    (h6 : dobj.value = V) :
    parse_route data T = .ok (dist, dobj.text, some (pyStrftime (T + V))) ∧
    parse_route data T = parse_route data T := by
  subst h6
  exact ⟨(parse_route_ok_iff data T dist dobj.text (some (pyStrftime (T + dobj.value)))).2
    ⟨h1, r0, rs, leg, ls, dobj, h2, h3, h4, h5, rfl, rfl⟩, rfl⟩

/-- Witness for C1 at the spec's end-to-end scenario 3. -/
theorem arrival_time_computed_witness :
    parse_route
      ⟨some (chars "OK"),
       [⟨[⟨some (chars "27.0 km"), some ⟨chars "25 mins", 1500⟩, none⟩]⟩], none⟩
      1000000000 =
      .ok (chars "27.0 km", chars "25 mins", some (chars "2001-09-09 02:11:40")) :=
  ((arrival_time_computed
      ⟨some (chars "OK"),
       [⟨[⟨some (chars "27.0 km"), some ⟨chars "25 mins", 1500⟩, none⟩]⟩], none⟩
      1000000000 1500 ⟨[⟨some (chars "27.0 km"), some ⟨chars "25 mins", 1500⟩, none⟩]⟩ []
      ⟨some (chars "27.0 km"), some ⟨chars "25 mins", 1500⟩, none⟩ []
      (chars "27.0 km") ⟨chars "25 mins", 1500⟩
      rfl rfl rfl rfl rfl rfl).1).trans (by decide)

/-- C3: an error during a display refresh is caught: the second line becomes
the error text truncated to at most 80 characters and upper-cased, and the
next timer is still armed at the configured interval; no outcome of a refresh
fails to re-arm the timer. -/
theorem update_lines_error_handling (exc : PyErr) (r dep now : Int) :
    (update_lines (.error exc) r dep now).1.line2 = upper (List.take 80 (pyStr exc)) ∧
    (update_lines (.error exc) r dep now).1.line2.length ≤ 80 ∧
    (∀ res, (update_lines res r dep now).2 = r * 1000) := by
  refine ⟨rfl, ?_, ?_⟩
  · simp only [update_lines, upper, List.length_map, List.length_take]
    omega
  · intro res
    cases res with
    | ok p => cases p; rfl
    | error e => rfl

/-- C8: on every successful parse the duration object is the traffic-aware
field when present and the base field otherwise, and both the displayed
duration text and the value used for the arrival computation come from that
same selected object. -/
theorem duration_selection (data : PyResp) (T : Int) (d t : List Char)
    (a : Option (List Char)) (h : parse_route data T = .ok (d, t, a)) :
    ∃ r0 rs leg ls dobj, data.routes = r0 :: rs ∧ r0.legs = leg :: ls ∧
      (leg.duration_in_traffic = some dobj ∨
        (leg.duration_in_traffic = none ∧ leg.duration = some dobj)) ∧
      t = dobj.text ∧ a = some (pyStrftime (T + dobj.value)) := by
  obtain ⟨-, r0, rs, leg, ls, dobj, hr, hl, -, hp, ht, ha⟩ :=
    (parse_route_ok_iff data T d t a).1 h
  exact ⟨r0, rs, leg, ls, dobj, hr, hl, (pickDuration_eq_some_iff leg dobj).1 hp, ht, ha⟩

/-- Witness for C8: with both duration fields present the traffic-aware one is
selected for both the text and the arrival value. -/
theorem duration_selection_witness :
    ∃ r0 rs leg ls dobj,
      (⟨some (chars "OK"),
        [⟨[⟨some (chars "10 km"), some ⟨chars "21 mins", 1260⟩,
            some ⟨chars "15 mins", 900⟩⟩]⟩], none⟩ : PyResp).routes = r0 :: rs ∧
      r0.legs = leg :: ls ∧
      (leg.duration_in_traffic = some dobj ∨
        (leg.duration_in_traffic = none ∧ leg.duration = some dobj)) ∧
      chars "21 mins" = dobj.text ∧
      (some (pyStrftime 1260) : Option (List Char)) = some (pyStrftime (0 + dobj.value)) :=
  duration_selection
    ⟨some (chars "OK"),
     [⟨[⟨some (chars "10 km"), some ⟨chars "21 mins", 1260⟩,
         some ⟨chars "15 mins", 900⟩⟩]⟩], none⟩
    0 (chars "10 km") (chars "21 mins") (some (pyStrftime 1260)) (by decide)

/-- C10: although the result type declares the arrival text optional, every
successful `parse_route` run returns a present arrival string. -/
theorem arrival_always_some (data : PyResp) (T : Int) (d t : List Char)
    (a : Option (List Char)) (h : parse_route data T = .ok (d, t, a)) :
    ∃ s, a = some s := by
  obtain ⟨-, r0, rs, leg, ls, dobj, -, -, -, -, -, ha⟩ :=
    (parse_route_ok_iff data T d t a).1 h
  exact ⟨_, ha⟩

/-- Witness for C10 at a concrete successful parse. -/
theorem arrival_always_some_witness :
    ∃ s, (some (chars "2001-09-09 02:11:40") : Option (List Char)) = some s :=
  arrival_always_some
    ⟨some (chars "OK"),
     [⟨[⟨some (chars "27.0 km"), some ⟨chars "25 mins", 1500⟩, none⟩]⟩], none⟩
    1000000000 (chars "27.0 km") (chars "25 mins")
    (some (chars "2001-09-09 02:11:40")) (by decide)

/-- C2 counterexample: a status-`OK` response whose `routes` list is non-empty
but whose first route has no legs makes `parse_route` fail with `IndexError`
(from `legs[0]`), not with the `ValueError` that carries the status code — so
the claimed "success iff status OK and a route present, else RouteError, never
any other failure" is false on the code. -/
theorem parse_route_other_failure_cex :
    ((⟨some (chars "OK"), [⟨[]⟩], none⟩ : PyResp).status = some (chars "OK") ∧
     (⟨some (chars "OK"), [⟨[]⟩], none⟩ : PyResp).routes ≠ []) ∧
    parse_route ⟨some (chars "OK"), [⟨[]⟩], none⟩ 0 = .error .indexError ∧
    ∀ m, PyErr.indexError ≠ PyErr.valueError m := by
  refine ⟨by decide, by decide, fun m hm => PyErr.noConfusion hm⟩

/-- C2 amended: `parse_route` succeeds iff the response has status `OK` and a
first route whose first leg carries a distance and a duration; when the status
is not `OK` or no route is present it fails with the `ValueError` (spec:
`RouteError`) carrying the provider's status code and optional message text
verbatim; a malformed response that passes the status/routes guard instead
fails with the corresponding other exception. -/
theorem parse_route_success_iff (data : PyResp) (T : Int) :
    ((∃ v, parse_route data T = .ok v) ↔ routeSuccessShape data) ∧
    (¬(data.status = some (chars "OK") ∧ data.routes ≠ []) →
      parse_route data T = .error (.valueError (apiErrorText data))) := by
  constructor
  · constructor
    · rintro ⟨⟨d, t, a⟩, h⟩
      obtain ⟨hst, r0, rs, leg, ls, dobj, hr, hl, hd, hp, -, -⟩ :=
        (parse_route_ok_iff data T d t a).1 h
      exact ⟨hst, r0, rs, leg, ls, dobj, hr, hl, ⟨d, hd⟩, hp⟩
    · rintro ⟨hst, r0, rs, leg, ls, dobj, hr, hl, ⟨d, hd⟩, hp⟩
      exact ⟨(d, dobj.text, some (pyStrftime (T + dobj.value))),
        (parse_route_ok_iff data T d dobj.text (some (pyStrftime (T + dobj.value)))).2
          ⟨hst, r0, rs, leg, ls, dobj, hr, hl, hd, hp, rfl, rfl⟩⟩
  · intro hbad
    simp only [parse_route, if_neg hbad]

/-- Witness for C2 (amended) at the spec's `ZERO_RESULTS` example: the
`ValueError` carries the status string. -/
theorem parse_route_success_iff_witness :
    parse_route ⟨some (chars "ZERO_RESULTS"), [], none⟩ 0 =
      .error (.valueError (chars "API error: ZERO_RESULTS: ")) :=
  ((parse_route_success_iff ⟨some (chars "ZERO_RESULTS"), [], none⟩ 0).2
    (by decide)).trans (by decide)

/-- C4 counterexample: with no environment override and a whitespace-only
fallback file, the loader succeeds with the empty string instead of failing
with `ConfigError` — no successful-result-is-non-empty guarantee exists. -/
theorem load_api_key_empty_ok_cex :
    load_api_key none (some (chars "   ")) = .ok ([] : List Char) := by decide

/-- C4 amended: a non-empty environment value is returned trimmed; otherwise
the trimmed fallback-file contents are returned unconditionally — even when
empty — and the loader fails only when the fallback file is missing (with
`FileNotFoundError`, not `ConfigError`).  With no environment override and a
fallback file containing `ABC123` it returns `ABC123`. -/
theorem load_api_key_resolution (k c : List Char) (hk : k ≠ []) :
    load_api_key (some k) (some c) = .ok (strip k) ∧
    load_api_key (some k) none = .ok (strip k) ∧
    load_api_key none (some c) = .ok (strip c) ∧
    load_api_key (some []) (some c) = .ok (strip c) ∧
    load_api_key none none = .error (.fileNotFound (chars "api")) := by
  refine ⟨?_, ?_, rfl, rfl, rfl⟩ <;> simp [load_api_key, hk]

/-- Witness for C4 (amended) at the spec's end-to-end scenario 1. -/
theorem load_api_key_resolution_witness :
    load_api_key (some (chars "ENVKEY")) (some (chars "ABC123")) =
      .ok (strip (chars "ENVKEY")) ∧
    load_api_key (some (chars "ENVKEY")) none = .ok (strip (chars "ENVKEY")) ∧
    load_api_key none (some (chars "ABC123")) = .ok (strip (chars "ABC123")) ∧
    load_api_key (some []) (some (chars "ABC123")) = .ok (strip (chars "ABC123")) ∧
    load_api_key none none = .error (.fileNotFound (chars "api")) :=
  load_api_key_resolution (chars "ENVKEY") (chars "ABC123") (by decide)

/-- C5 counterexample: the loader accepts `"1000,2000"` and returns a
coordinate far outside latitude `[-90, 90]` and longitude `[-180, 180]` — no
range validation exists. -/
theorem coords_out_of_range_cex :
    parse_latlng_pair (chars "1000,2000") = .ok (⟨1000, 1⟩, ⟨2000, 1⟩) ∧
    ¬(DecFloat.toRat ⟨1000, 1⟩ ≤ 90) ∧ ¬(DecFloat.toRat ⟨2000, 1⟩ ≤ 180) := by
  refine ⟨by decide, ?_, ?_⟩ <;> norm_num [DecFloat.toRat]

/-- C5 amended: the coordinates produced by the loader are exactly the float
values parsed from the two parts of the input, passed through with no range
validation, so the `[-90, 90] × [-180, 180]` invariant holds only when the
input values themselves lie in range. -/
theorem parse_latlng_passthrough (s : List Char) (lat lng : DecFloat)
    (h : parse_latlng_pair s = .ok (lat, lng)) :
    ∃ p0 p1, latlng_parts s = [p0, p1] ∧ pyFloat p0 = some lat ∧ pyFloat p1 = some lng := by
  unfold parse_latlng_pair at h
  rcases hp : latlng_parts s with _ | ⟨p0, rest⟩
  · rw [hp] at h
    exact Except.noConfusion h
  rcases rest with _ | ⟨p1, rest2⟩
  · rw [hp] at h
    exact Except.noConfusion h
  rcases rest2 with _ | ⟨p2, rest3⟩
  · rw [hp] at h
    rcases hf0 : pyFloat p0 with _ | x <;> rcases hf1 : pyFloat p1 with _ | y <;>
      simp [hf0, hf1] at h
    exact ⟨p0, p1, rfl, by rw [hf0, h.1], by rw [hf1, h.2]⟩
  · rw [hp] at h
    exact Except.noConfusion h

/-- Witness for C5 (amended): the out-of-range pair is passed through. -/
theorem parse_latlng_passthrough_witness :
    ∃ p0 p1, latlng_parts (chars "1000,2000") = [p0, p1] ∧
      pyFloat p0 = some ⟨1000, 1⟩ ∧ pyFloat p1 = some ⟨2000, 1⟩ :=
  parse_latlng_passthrough (chars "1000,2000") ⟨1000, 1⟩ ⟨2000, 1⟩ (by decide)

/-- C9 counterexample: an arrival that is present but empty is skipped by the
truthiness test `if arrival:`, so the console presenter prints only two lines
although the arrival component is present (non-`None`). -/
theorem print_route_empty_arrival_cex :
    (some ([] : List Char)) ≠ (none : Option (List Char)) ∧
    (print_route (chars "2.0 km") (chars "5 mins") (some [])).length = 2 := by
  exact ⟨fun hc => Option.noConfusion hc, by decide⟩

/-- C9 amended: per route the GUI presenter emits the single upper-cased line
`{name}  SJ --> Cag  |  {duration}` (no lower-case letter survives), and the
console presenter prints the distance line, the duration line, and the arrival
line exactly when the arrival text is present and non-empty. -/
theorem presenter_lines (name distance duration a : List Char) (ha : a ≠ []) :
    led_line name duration = upper (name ++ chars "  SJ --> Cag  |  " ++ duration) ∧
    (∀ c ∈ led_line name duration, c.isLower = false) ∧
    print_route distance duration (some a) =
      [chars "Distance: " ++ distance, chars "Estimated travel time: " ++ duration,
       chars "Estimated arrival time: " ++ a] ∧
    print_route distance duration none =
      [chars "Distance: " ++ distance, chars "Estimated travel time: " ++ duration] := by
  refine ⟨rfl, ?_, ?_, rfl⟩
  · intro c hc
    simp only [led_line, upper, List.mem_map] at hc
    obtain ⟨c0, -, hc0⟩ := hc
    rw [← hc0]
    exact toUpper_not_lower c0
  · simp [print_route, ha]

/-- The function `dropWhile` does not enter a list whose head fails the predicate. -/
theorem dropWhile_cons_false {p : Char → Bool} {c : Char} {l : List Char}
    (h : p c = false) : (c :: l).dropWhile p = c :: l := by
  simp [List.dropWhile_cons, h]

/-- The function `dropWhile` is the identity when no element satisfies the predicate. -/
theorem dropWhile_eq_self_of_all {p : Char → Bool} {l : List Char}
    (h : ∀ c ∈ l, p c = false) : l.dropWhile p = l := by
  cases l with
  | nil => rfl
  | cons c cs => exact dropWhile_cons_false (h c (List.mem_cons_self c cs))

/-- The function `strip` is the identity on whitespace-free strings. -/
theorem strip_eq_self_of_no_ws {l : List Char} (h : ∀ c ∈ l, isSpace c = false) :
    strip l = l := by
  unfold strip
  rw [dropWhile_eq_self_of_all h,
    dropWhile_eq_self_of_all (fun c hc => h c (List.mem_reverse.1 hc)),
    List.reverse_reverse]

/-- The function `strip` is the identity on two whitespace-free non-empty tokens joined by a
single interior space. -/
theorem strip_mid_space {a b : List Char} (ha : a ≠ []) (hb : b ≠ [])
    (haw : ∀ c ∈ a, isSpace c = false) (hbw : ∀ c ∈ b, isSpace c = false) :
    strip (a ++ ' ' :: b) = a ++ ' ' :: b := by
  unfold strip
  have h1 : (a ++ ' ' :: b).dropWhile isSpace = a ++ ' ' :: b := by
    cases a with
    | nil => exact absurd rfl ha
    | cons c cs => exact dropWhile_cons_false (haw c (List.mem_cons_self c cs))
  rw [h1]
  have h2 : (a ++ ' ' :: b).reverse.dropWhile isSpace = (a ++ ' ' :: b).reverse := by
    rcases hrb : b.reverse with _ | ⟨c, cs⟩
    · exact absurd (by simpa using congrArg List.reverse hrb) hb
    · have hrw : (a ++ ' ' :: b).reverse = c :: (cs ++ ' ' :: a.reverse) := by
        simp [List.reverse_append, hrb]
      rw [hrw]
      exact dropWhile_cons_false (hbw c (by rw [← List.mem_reverse, hrb]; simp))
  rw [h2, List.reverse_reverse]

/-- The function `splitChar` always yields at least one part. -/
theorem splitChar_ne_nil (sep : Char) (l : List Char) : splitChar sep l ≠ [] := by
  cases l with
  | nil => simp [splitChar]
  | cons c cs =>
    simp only [splitChar]
    cases hs : splitChar sep cs with
    | nil => simp
    | cons h0 t => by_cases hc : c = sep <;> simp [hc]

/-- A separator-free string splits into the single part itself. -/
theorem splitChar_not_mem {sep : Char} {l : List Char} (h : sep ∉ l) :
    splitChar sep l = [l] := by
  induction l with
  | nil => rfl
  | cons c cs ih =>
    have hc : c ≠ sep := fun he => h (he ▸ List.mem_cons_self c cs)
    have hcs : sep ∉ cs := fun hm => h (List.mem_cons_of_mem c hm)
    simp only [splitChar, ih hcs]
    rw [if_neg hc]

/-- Prepending a separator-free prefix extends the first part of a split. -/
theorem splitChar_append_cons {sep : Char} {a m : List Char} (ha : sep ∉ a)
    {h0 : List Char} {t : List (List Char)} (hm : splitChar sep m = h0 :: t) :
    splitChar sep (a ++ m) = (a ++ h0) :: t := by
  induction a with
  | nil => simpa using hm
  | cons c cs ih =>
    have hc : c ≠ sep := fun he => ha (he ▸ List.mem_cons_self c cs)
    have hcs : sep ∉ cs := fun hmem => ha (List.mem_cons_of_mem c hmem)
    simp only [List.cons_append, splitChar, List.append_eq, ih hcs]
    rw [if_neg hc]

/-- A leading separator contributes an empty first part. -/
theorem splitChar_sep_cons {sep : Char} {b : List Char} :
    splitChar sep (sep :: b) = [] :: splitChar sep b := by
  simp only [splitChar]
  cases hs : splitChar sep b with
  | nil => exact absurd hs (splitChar_ne_nil sep b)
  | cons h0 t => simp

/-- Two separator-free tokens joined by the separator split into exactly those
two parts. -/
theorem splitChar_two_tokens {sep : Char} {a b : List Char} (ha : sep ∉ a)
    (hb : sep ∉ b) : splitChar sep (a ++ sep :: b) = [a, b] := by
  have h1 : splitChar sep (sep :: b) = [] :: [b] := by
    rw [splitChar_sep_cons, splitChar_not_mem hb]
  simpa using splitChar_append_cons ha h1

/-- Consuming a whitespace-free chunk accumulates it into the current token. -/
theorem splitWsAux_append_token {l : List Char} (hl : ∀ c ∈ l, isSpace c = false) :
    ∀ rest acc, splitWsAux (l ++ rest) acc = splitWsAux rest (l.reverse ++ acc) := by
  induction l with
  | nil => intro rest acc; simp
  | cons c cs ih =>
    intro rest acc
    have hc : isSpace c = false := hl c (List.mem_cons_self c cs)
    have hcs : ∀ x ∈ cs, isSpace x = false := fun x hx => hl x (List.mem_cons_of_mem c hx)
    simp only [List.cons_append, splitWsAux, List.append_eq]
    rw [if_neg (by simp [hc]), ih hcs rest (c :: acc)]
    simp

/-- Whitespace-splitting of two whitespace-free non-empty tokens joined by a
single space. -/
theorem splitWs_two_tokens {a b : List Char} (ha : a ≠ []) (hb : b ≠ [])
    (haw : ∀ c ∈ a, isSpace c = false) (hbw : ∀ c ∈ b, isSpace c = false) :
    splitWs (a ++ ' ' :: b) = [a, b] := by
  unfold splitWs
  rw [splitWsAux_append_token haw (' ' :: b) []]
  have hb1 : splitWsAux b [] = [b] := by
    have := splitWsAux_append_token hbw [] []
    simp only [List.append_nil] at this
    rw [this]
    simp only [splitWsAux]
    rw [if_neg (by simpa using hb)]
    simp
  simp only [List.append_nil, splitWsAux]
  rw [if_pos (show isSpace ' ' = true from rfl), if_neg (show ¬a.reverse = [] by simpa using ha),
    hb1]
  simp

/-- The parts of a comma-joined pair of clean tokens. -/
theorem latlng_parts_comma {a b : List Char}
    (haw : ∀ c ∈ a, isSpace c = false ∧ c ≠ ',')
    (hbw : ∀ c ∈ b, isSpace c = false ∧ c ≠ ',') :
    latlng_parts (a ++ ',' :: b) = [a, b] := by
  have hnw : ∀ c ∈ a ++ ',' :: b, isSpace c = false := by
    intro c hc
    rcases List.mem_append.1 hc with h | h
    · exact (haw c h).1
    · rcases List.mem_cons.1 h with h | h
      · rw [h]; rfl
      · exact (hbw c h).1
  have hna : ',' ∉ a := fun hm => (haw ',' hm).2 rfl
  have hnb : ',' ∉ b := fun hm => (hbw ',' hm).2 rfl
  unfold latlng_parts
  rw [strip_eq_self_of_no_ws hnw, if_pos (by simp),
    splitChar_two_tokens hna hnb]
  simp only [List.map_cons, List.map_nil]
  rw [strip_eq_self_of_no_ws (fun c hc => (haw c hc).1),
    strip_eq_self_of_no_ws (fun c hc => (hbw c hc).1)]

/-- The parts of a space-joined pair of clean tokens. -/
theorem latlng_parts_space {a b : List Char} (ha : a ≠ []) (hb : b ≠ [])
    (haw : ∀ c ∈ a, isSpace c = false ∧ c ≠ ',')
    (hbw : ∀ c ∈ b, isSpace c = false ∧ c ≠ ',') :
    latlng_parts (a ++ ' ' :: b) = [a, b] := by
  have hnc : ',' ∉ a ++ ' ' :: b := by
    intro hm
    rcases List.mem_append.1 hm with h | h
    · exact (haw ',' h).2 rfl
    · rcases List.mem_cons.1 h with h | h
      · exact absurd h (by decide)
      · exact (hbw ',' h).2 rfl
  unfold latlng_parts
  rw [strip_mid_space ha hb (fun c hc => (haw c hc).1) (fun c hc => (hbw c hc).1),
    if_neg hnc,
    splitWs_two_tokens ha hb (fun c hc => (haw c hc).1) (fun c hc => (hbw c hc).1)]

/-- A non-empty all-digit string is a valid PEP-515 digit run. -/
theorem digitsU_of_all {l : List Char} (hne : l ≠ []) (h : ∀ c ∈ l, c.isDigit = true) :
    digitsU l = true := by
  have hnu : '_' ∉ l := by
    intro hm
    exact absurd (h '_' hm) (by decide)
  unfold digitsU
  rw [splitChar_not_mem hnu]
  have h1 : l.isEmpty = false := by
    cases l with
    | nil => exact absurd rfl hne
    | cons c cs => rfl
  have h2 : l.all Char.isDigit = true := List.all_eq_true.2 h
  simp [h1, h2]

/-- A string the conservative digit parser accepts is a valid digit run. -/
theorem parseUIntDigits_accepts {l : List Char} {n : Nat}
    (h : parseUIntDigits l = some n) : digitsU l = true := by
  unfold parseUIntDigits at h
  split at h
  · rename_i hcond
    rw [Bool.and_eq_true] at hcond
    refine digitsU_of_all ?_ ?_
    · intro he
      rw [he] at hcond
      exact absurd hcond.1 (by decide)
    · intro c hc
      exact List.all_eq_true.1 hcond.2 c hc
  · exact Option.noConfusion h

/-- A mantissa the conservative parser accepts is accepted by `float()`. -/
theorem parseMantissa_accepts {l : List Char} {m : DecFloat}
    (h : parseMantissa l = some m) : mantissaU l = true := by
  unfold parseMantissa at h
  unfold mantissaU
  rcases hs : splitChar '.' l with _ | ⟨ip, rest⟩
  · rw [hs] at h
    simp at h
  rcases rest with _ | ⟨fp, rest2⟩
  · rw [hs] at h
    rcases hip : parseUIntDigits ip with _ | n
    · simp [hip] at h
    · exact parseUIntDigits_accepts hip
  rcases rest2 with _ | ⟨q, rest3⟩
  · rw [hs] at h
    by_cases hcond :
      ((!ip.isEmpty || !fp.isEmpty) && ip.all Char.isDigit && fp.all Char.isDigit) = true
    · rw [Bool.and_eq_true, Bool.and_eq_true] at hcond
      obtain ⟨⟨hne2, hipd⟩, hfpd⟩ := hcond
      have hip : (ip.isEmpty || digitsU ip) = true := by
        by_cases hie : ip = []
        · rw [hie]
          rfl
        · rw [digitsU_of_all hie (fun c hc => List.all_eq_true.1 hipd c hc)]
          simp
      have hfp : (fp.isEmpty || digitsU fp) = true := by
        by_cases hfe : fp = []
        · rw [hfe]
          rfl
        · rw [digitsU_of_all hfe (fun c hc => List.all_eq_true.1 hfpd c hc)]
          simp
      show ((ip.isEmpty || digitsU ip) && (fp.isEmpty || digitsU fp) &&
        (!ip.isEmpty || !fp.isEmpty)) = true
      rw [hip, hfp, hne2]
      rfl
    · simp [hcond] at h
  · rw [hs] at h
    simp at h

/-- An exponent the conservative parser accepts is accepted by `float()`. -/
theorem parseExponent_accepts {l : List Char} {e : Int}
    (h : parseExponent l = some e) : expU l = true := by
  unfold expU
  rcases hq : parseUIntDigits (signSplit l).2 with _ | n
  · simp [parseExponent, hq] at h
  · exact parseUIntDigits_accepts hq

/-- Soundness of the conservative float parser with respect to the faithful
acceptance predicate: every string `pyFloat` parses is accepted by Python
`float()`. -/
theorem pyFloat_some_accepts {l : List Char} {v : DecFloat}
    (h : pyFloat l = some v) : pyFloatAccepts l = true := by
  simp only [pyFloat, pyFloatCore] at h
  simp only [pyFloatAccepts, pyFloatAcceptsCore]
  rcases hm : parseMantissa (splitOnExpChar (signSplit (strip l)).2).1 with _ | m
  · rw [hm] at h
    simp at h
  rcases he : (splitOnExpChar (signSplit (strip l)).2).2 with _ | es
  · simp [parseMantissa_accepts hm]
  · rw [hm, he] at h
    rcases hpe : parseExponent es with _ | ex
    · simp [hpe] at h
    · simp [parseMantissa_accepts hm, parseExponent_accepts hpe]

/-- C6: for numeric whitespace-and-comma-free tokens `a` and `b`, the coordinate
parser yields the identical float pair on the comma-separated string `"a,b"`
and the space-separated string `"a b"`. -/
theorem separator_equiv (a b : List Char) (x y : DecFloat)
    (ha : a ≠ []) (hb : b ≠ [])
    (haw : ∀ c ∈ a, isSpace c = false ∧ c ≠ ',')
    (hbw : ∀ c ∈ b, isSpace c = false ∧ c ≠ ',')
    (hx : pyFloat a = some x) (hy : pyFloat b = some y) :
    parse_latlng_pair (a ++ ',' :: b) = .ok (x, y) ∧
    parse_latlng_pair (a ++ ' ' :: b) = .ok (x, y) := by
  constructor
  · unfold parse_latlng_pair
    rw [latlng_parts_comma haw hbw]
    simp [hx, hy]
  · unfold parse_latlng_pair
    rw [latlng_parts_space ha hb haw hbw]
    simp [hx, hy]

/-- Witness for C6 at the spec's example coordinates. -/
theorem separator_equiv_witness :
    parse_latlng_pair (chars "18.27" ++ ',' :: chars "-66.03") =
      .ok (⟨1827, 100⟩, ⟨-6603, 100⟩) ∧
    parse_latlng_pair (chars "18.27" ++ ' ' :: chars "-66.03") =
      .ok (⟨1827, 100⟩, ⟨-6603, 100⟩) :=
  separator_equiv (chars "18.27") (chars "-66.03") ⟨1827, 100⟩ ⟨-6603, 100⟩
    (by decide) (by decide) (by decide) (by decide) (by decide) (by decide)

/-- C7: a malformed coordinate string — one that splits into a number of parts
other than two, or whose parts are not accepted by Python `float()` — makes
both the pair parser and the coordinate loader fail with the
`EnvironmentError` (spec: `ConfigError`) and with no other kind of exception,
returning no partial coordinate data. -/
theorem malformed_coords_error (s : List Char) (latv lngv : Option (List Char))
    (pfx : List Char)
    (hmal : (latlng_parts s).length ≠ 2 ∨
      ∃ p0 p1, latlng_parts s = [p0, p1] ∧
        (pyFloatAccepts p0 = false ∨ pyFloatAccepts p1 = false))
    (hne : strip s ≠ []) :
    (∃ m, parse_latlng_pair s = .error (.envError m)) ∧
    (∃ m, read_coords (some s) latv lngv pfx = .error (.envError m)) := by
  have hfirst : ∃ m, parse_latlng_pair s = .error (.envError m) := by
    unfold parse_latlng_pair
    rcases hp : latlng_parts s with _ | ⟨p0, rest⟩
    · exact ⟨_, rfl⟩
    rcases rest with _ | ⟨p1, rest2⟩
    · exact ⟨_, rfl⟩
    rcases rest2 with _ | ⟨p2, rest3⟩
    · rcases hmal with hlen | ⟨q0, q1, heq, hnacc⟩
      · rw [hp] at hlen
        simp at hlen
      · rw [hp] at heq
        injection heq with h1 h2
        injection h2 with h2 h3
        subst h1 h2
        have hnone : pyFloat p0 = none ∨ pyFloat p1 = none := by
          rcases hnacc with hna | hna
          · rcases hq : pyFloat p0 with _ | v
            · exact Or.inl rfl
            · rw [pyFloat_some_accepts hq] at hna
              exact absurd hna (by decide)
          · rcases hq : pyFloat p1 with _ | v
            · exact Or.inr rfl
            · rw [pyFloat_some_accepts hq] at hna
              exact absurd hna (by decide)
        refine ⟨chars "Invalid coordinate numbers in: " ++ s, ?_⟩
        rcases hnone with h0 | h1
        · rcases hq : pyFloat p1 with _ | w <;> simp [h0, hq]
        · rcases hq : pyFloat p0 with _ | v <;> simp [h1, hq]
    · exact ⟨_, rfl⟩
  obtain ⟨m, he⟩ := hfirst
  refine ⟨⟨m, he⟩, ⟨m, ?_⟩⟩
  simp only [read_coords, if_neg hne]
  exact he

/-- Witness for C7 at the three-part input `"1,2,3"` and the non-numeric input
`"abc,1"`: both fail with `EnvironmentError` in both the parser and the
loader. -/
theorem malformed_coords_error_witness :
    ((∃ m, parse_latlng_pair (chars "1,2,3") = .error (.envError m)) ∧
     (∃ m, read_coords (some (chars "1,2,3")) none none (chars "ROUTE1_ORIGIN") =
        .error (.envError m))) ∧
    ((∃ m, parse_latlng_pair (chars "abc,1") = .error (.envError m)) ∧
     (∃ m, read_coords (some (chars "abc,1")) none none (chars "ROUTE1_ORIGIN") =
        .error (.envError m))) :=
  ⟨malformed_coords_error (chars "1,2,3") none none (chars "ROUTE1_ORIGIN")
      (Or.inl (by decide)) (by decide),
   malformed_coords_error (chars "abc,1") none none (chars "ROUTE1_ORIGIN")
      (Or.inr ⟨chars "abc", chars "1", by decide, Or.inl (by decide)⟩) (by decide)⟩

/-- Witness for C9 (amended) at concrete route fields. -/
theorem presenter_lines_witness :
    led_line (chars "Route 1") (chars "21 mins") =
      upper (chars "Route 1" ++ chars "  SJ --> Cag  |  " ++ chars "21 mins") ∧
    (∀ c ∈ led_line (chars "Route 1") (chars "21 mins"), c.isLower = false) ∧
    print_route (chars "27.0 km") (chars "21 mins") (some (chars "2001-09-09 02:11:40")) =
      [chars "Distance: " ++ chars "27.0 km",
       chars "Estimated travel time: " ++ chars "21 mins",
       chars "Estimated arrival time: " ++ chars "2001-09-09 02:11:40"] ∧
    print_route (chars "27.0 km") (chars "21 mins") none =
      [chars "Distance: " ++ chars "27.0 km",
       chars "Estimated travel time: " ++ chars "21 mins"] :=
  presenter_lines (chars "Route 1") (chars "27.0 km") (chars "21 mins")
    (chars "2001-09-09 02:11:40") (by decide)

end AutoExpresso
